import Mathlib

/-!
A shallow embedding of rb's routing clients (`rb/clients.py`).

This file embeds, in Lean 4, the data model and operations of the
command-pipelining layer in `rb/clients.py`: the auto-batch coalescer
(`merge_batch`, `auto_batch_commands`), the per-host `CommandBuffer`
(`send_pending_requests`, `wait_for_responses`, `closed`), the
`MappingClient` buffer-acquisition and release protocol, the synchronous
`RoutingClient.execute_command` retry path, `FanoutClient.target`, and the
`MapManager` context manager.

Python objects are modelled as immutable records; mutation becomes explicit
state passing.  Promises are identified by natural-number ids; a resolution
is recorded as an explicit settle event rather than a mutation of a cell.
Python exceptions are modelled with `Except`/an explicit error component.
Fresh `Promise()` allocations are modelled by threading a counter of the
next unused promise id.
-/

namespace Rb

/-- Redis argument / value strings.  -/
abbrev Arg := String

/-- A value as returned by the server / bound to a promise: a string, an
integer, a list (multi-bulk) reply, or nil.  -/
inductive RVal where
  | s (v : String)
  | i (n : Int)
  | arr (vs : List RVal)
  | nil
  deriving Repr

/-- A queued command triple as stored in `CommandBuffer.commands`:
`(command_name, args, promise)`, with the promise given by its id.  -/
structure Cmd where
  name : String
  args : List Arg
  promise : Nat
  deriving DecidableEq, Repr

/-- Python exceptions raised by the embedded code.  -/
inductive PyErr where
  /-- Raised by `assert_open`: `ValueError('I/O operation on closed file')`.  -/
  | valueError
  /-- Raised when reading an attribute that was never assigned: `AttributeError`.  -/
  | attributeError
  /-- Raised as `TypeError` (e.g. `FanoutClient.target` used twice).  -/
  | typeError
  /-- The `redis.exceptions.ConnectionError` exception.  -/
  | connError
  /-- The `redis.exceptions.TimeoutError` exception.  -/
  | timeoutError
  /-- any other exception (e.g. a protocol/parse error), not caught by
  `except (ConnectionError, TimeoutError)`.  -/
  | otherError
  deriving DecidableEq, Repr

/-- The module-level coalescing table `AUTO_BATCH_COMMANDS`:
`{'GET': ('MGET', True), 'SET': ('MSET', False)}`, as
`(name, (batch_command, list_response))` entries.  -/
def AUTO_BATCH_COMMANDS : List (String × String × Bool) :=
  [("GET", ("MGET", true)), ("SET", ("MSET", false))]

/-- Dictionary lookup `AUTO_BATCH_COMMANDS[name]` (`none` models a missing
key, i.e. `name not in AUTO_BATCH_COMMANDS`).  -/
def autoBatchLookup (name : String) : Option (String × Bool) :=
  (AUTO_BATCH_COMMANDS.find? (fun e => e.1 = name)).map (·.2)

/-- The scatter callback that `merge_batch` registers on the fresh batch
promise (`@promise.done def on_success(value): ...`), recorded as data:
the batch promise id, the `list_response` flag of the table entry, and the
original promises of the group in enqueue order.  -/
structure Scatter where
  batchPromise : Nat
  listResponse : Bool
  members : List Nat
  deriving DecidableEq, Repr

/-- Running the `on_success` callback of `merge_batch` once the batch
promise resolves with `value`: with `list_response` the items of the list
reply are paired positionally with the member promises (`izip` truncates at
the shorter sequence); otherwise the scalar reply is broadcast to every
member.  Each `(promise, value)` pair is one `promise.resolve(value)` call.
(Only list replies are iterated on the `list_response` path, as in every
run the claims exercise.)  -/
def runScatter (sc : Scatter) (value : RVal) : List (Nat × RVal) :=
  if sc.listResponse then
    match value with
    | .arr vs => (vs.zip sc.members).map (fun p => (p.2, p.1))
    | _ => []
  else
    sc.members.map (fun m => (m, value))

/-- Function `merge_batch(command_name, arg_promise_tuples)` of `rb/clients.py`.

Looks up `(batch_command, list_response)` in `AUTO_BATCH_COMMANDS` (the
caller only passes coalescible names, so the `.getD` default is
unreachable).  A group of one returns the original command and promise
unchanged with no callback.  A larger group allocates a fresh batch promise
(`fresh`), registers the scatter callback on it (returned as a `Scatter`
record), concatenates the individual argument lists, and returns the batch
command.  Result: `(effective command, registered scatter, next fresh id)`. -/
def merge_batch (fresh : Nat) (command_name : String)
    (arg_promise_tuples : List (List Arg × Nat)) :
    Cmd × Option Scatter × Nat :=
  let entry := (autoBatchLookup command_name).getD ("", false)
  match arg_promise_tuples with
  | [(args, promise)] => (⟨command_name, args, promise⟩, none, fresh)
  | tuples =>
      let promise := fresh
      let args := tuples.foldl (fun acc t => acc ++ t.1) []
      (⟨entry.1, args, promise⟩,
       some ⟨promise, entry.2, tuples.map (·.2)⟩,
       fresh + 1)

/-- The loop body of `auto_batch_commands`, made structurally recursive.
State: the next fresh promise id and `pending_batch`
(`none` models Python's `None`; `some (name, tuples)` the pending tuple,
whose second component is the list mutated by `append`).

Faithful to the source, including its stray `None` statement: on the
non-coalescible branch the pending batch is *yielded but not cleared*
(the line after `yield merge_batch(*pending_batch)` is the no-op
expression `None`, not `pending_batch = None`), so a later command of the
same name appends to the already-yielded batch and the trailing flush
merges the grown group again.

Returns `(yielded effective commands, registered scatters, next fresh id)`. -/
def auto_batch_go (fresh : Nat)
    (pending_batch : Option (String × List (List Arg × Nat))) :
    List Cmd → List Cmd × List Scatter × Nat
  | [] =>
      match pending_batch with
      | none => ([], [], fresh)
      | some (name, tuples) =>
          let (c, sc, f) := merge_batch fresh name tuples
          ([c], sc.toList, f)
  | c :: rest =>
      match autoBatchLookup c.name with
      | none =>
          -- `command_name not in AUTO_BATCH_COMMANDS`
          match pending_batch with
          | some (name, tuples) =>
              let (b, sc, f) := merge_batch fresh name tuples
              -- BUG in source: `None` instead of `pending_batch = None`,
              -- so the batch stays pending after being yielded.
              let (cs, scs, f2) := auto_batch_go f (some (name, tuples)) rest
              (b :: c :: cs, sc.toList ++ scs, f2)
          | none =>
              let (cs, scs, f2) := auto_batch_go fresh none rest
              (c :: cs, scs, f2)
      | some _ =>
          match pending_batch with
          | some (name, tuples) =>
              if name = c.name then
                -- `pending_batch[1].append((args, promise))`
                auto_batch_go fresh (some (name, tuples ++ [(c.args, c.promise)])) rest
              else
                let (b, sc, f) := merge_batch fresh name tuples
                let (cs, scs, f2) :=
                  auto_batch_go f (some (c.name, [(c.args, c.promise)])) rest
                (b :: cs, sc.toList ++ scs, f2)
          | none =>
              auto_batch_go fresh (some (c.name, [(c.args, c.promise)])) rest

/-- Generator `auto_batch_commands(commands)`, started with no pending
batch.  `fresh` is the first unused promise id for batch promises.  -/
def auto_batch_commands (fresh : Nat) (commands : List Cmd) :
    List Cmd × List Scatter × Nat :=
  auto_batch_go fresh none commands

/-! Running a command stream against a server.

For the transparency claim we need the caller-visible promise bindings of a
run.  A server is a function from `(name, args)` to a reply.  Each effective
command written to the wire gets one reply; if the command is a coalesced
batch (its promise is the batch promise of a registered scatter), resolving
the batch promise runs the scatter callback, which settles the *original*
promises; otherwise the reply settles the command's own promise.  -/

/-- A (stateless) server: reply to a command.  -/
def Server := String → List Arg → RVal

/-- A server honours the per-element assumption when `MGET` of a list of
keys is the list of the `GET`s of those keys, and `MSET` of an
interleaved key/value list gives every interleaved `SET` pair the same
scalar reply as `MSET` itself.  -/
def Server.perElement (srv : Server) : Prop :=
  (∀ keys : List Arg, srv "MGET" keys = .arr (keys.map (fun k => srv "GET" [k]))) ∧
  (∀ kvs : List Arg, ∀ k v, [k, v] <:+: kvs → srv "SET" [k, v] = srv "MSET" kvs)

/-- The caller-visible settle events of responding, in order, to each
effective command of a stream: a batch command's reply is scattered to the
original promises via its registered callback; any other reply resolves the
command's own promise.  -/
def run_effective (srv : Server) (scatters : List Scatter) : List Cmd → List (Nat × RVal)
  | [] => []
  | c :: rest =>
      (match scatters.find? (fun sc => sc.batchPromise = c.promise) with
       | some sc => runScatter sc (srv c.name c.args)
       | none => [(c.promise, srv c.name c.args)]) ++ run_effective srv scatters rest

/-- One buffer run with `auto_batch` enabled: coalesce, then respond to the
effective stream.  `fresh` must exceed every promise id in `commands`.  -/
def run_with_batch (srv : Server) (fresh : Nat) (commands : List Cmd) :
    List (Nat × RVal) :=
  let (effs, scatters, _) := auto_batch_commands fresh commands
  run_effective srv scatters effs

/-- One buffer run with `auto_batch` disabled: every queued command is sent
as-is and its reply resolves its own promise.  -/
def run_without_batch (srv : Server) (commands : List Cmd) : List (Nat × RVal) :=
  run_effective srv [] commands

/-! CommandBuffer. -/

/-- The `_sock` side of a redis connection: `some fd` when connected.  -/
structure ConnObj where
  sock : Option Nat
  deriving DecidableEq, Repr

/-- The mutable state of a `CommandBuffer`.  `connection = none` models the
field being set to `None` on release.  -/
structure CommandBufferState where
  host_id : Nat
  connection : Option ConnObj
  commands : List Cmd
  pending_responses : List (String × Nat)
  auto_batch : Bool
  deriving DecidableEq, Repr

/-- Property `CommandBuffer.closed`: `self.connection is None or
self.connection._sock is None`.  -/
def CommandBufferState.closed (b : CommandBufferState) : Bool :=
  match b.connection with
  | none => true
  | some c => c.sock.isNone

/-- Method `CommandBuffer.send_pending_requests`.  `assert_open` raises
`ValueError` on a closed buffer.  On an empty `commands` list it returns
without touching anything.  Otherwise it empties `commands`, applies
`auto_batch_commands` when `auto_batch` is set, and for each effective
command appends one wire entry `(command_name,) + tuple(args)` to the pack
buffer and one `(command_name, promise)` pair to `pending_responses`; the
pack buffer is packed and written with a single
`send_packed_command`.  Result: `(new state, wire entries written in that
one send, scatters registered by coalescing, next fresh promise id)`.  -/
def send_pending_requests (st : CommandBufferState) (fresh : Nat) :
    Except PyErr (CommandBufferState × List (String × List Arg) × List Scatter × Nat) :=
  if st.closed then .error .valueError
  else if st.commands = [] then .ok (st, [], [], fresh)
  else
    let r := if st.auto_batch then auto_batch_commands fresh st.commands
             else (st.commands, [], fresh)
    .ok ({ st with
             commands := [],
             pending_responses :=
               st.pending_responses ++ r.1.map (fun c => (c.name, c.promise)) },
         r.1.map (fun c => (c.name, c.args)), r.2.1, r.2.2)

/-- A settle event on a promise.  The drain loop of `wait_for_responses`
only ever issues `resolve`; nothing in `rb/clients.py` rejects a promise. -/
inductive SettleEv where
  | resolve (promise : Nat) (value : RVal)
  | reject (promise : Nat) (err : PyErr)
  deriving Repr

/-- The response loop of `wait_for_responses`: for each pending
`(command_name, promise)` in order, `client.parse_response` reads one reply
from the connection (modelled as the oracle `parse i` for the `i`-th read);
a successful parse resolves the promise, an exception aborts the loop and
propagates.  Returns the settle events issued and the propagated error.  -/
def drain_loop (parse : Nat → Except PyErr RVal) :
    Nat → List (String × Nat) → List SettleEv × Option PyErr
  | _, [] => ([], none)
  | i, (_, p) :: rest =>
      match parse i with
      | .error e => ([], some e)
      | .ok v =>
          let r := drain_loop parse (i + 1) rest
          (.resolve p v :: r.1, r.2)

/-- Method `CommandBuffer.wait_for_responses`.  `assert_open` raises on a closed
buffer.  Otherwise `pending_responses` is emptied *before* the loop, and
each pending promise is resolved with its parsed reply; an exception from
`parse_response` propagates with no handler, leaving the remaining promises
unsettled and the connection untouched.  Result:
`(new state, settle events, propagated error if any)`.  -/
def wait_for_responses (st : CommandBufferState)
    (parse : Nat → Except PyErr RVal) :
    CommandBufferState × List SettleEv × Option PyErr :=
  if st.closed then (st, [], some .valueError)
  else
    let pending := st.pending_responses
    let st1 := { st with pending_responses := [] }
    let r := drain_loop parse 0 pending
    (st1, r.1, r.2)

/-! MappingClient: buffer acquisition, back-pressure and release.

For the registry-cap protocol only the poll registry's key set matters: the
registry is the insertion-ordered list of host ids with live buffers.
`poll(timeout)` is modelled by an oracle giving, for the `k`-th poll, the
host ids whose sockets turn readable within the timeout.  -/

/-- Method `MappingClient._try_to_clear_outstanding_requests(timeout=1.0)`:
if the registry is empty, return at once; otherwise flush every registered
buffer (no effect on the registry), then drain and `_release_command_buffer`
(= unregister) every buffer that `poll` reports ready.  -/
def try_to_clear_outstanding_requests (registry : List Nat) (ready : List Nat) :
    List Nat :=
  if registry = [] then registry
  else registry.filter (fun h => h ∉ ready)

/-- The `while len(self._command_buffer_poll) >= self._max_concurrency`
loop of `_get_command_buffer`, with poll readiness supplied by `oracle k`
for the `k`-th iteration.  The source loop need not terminate (a never-ready
oracle starves it); `fuel` bounds the iterations we run, and `none` models
a call that has not returned within `fuel` iterations.  -/
def clear_loop (oracle : Nat → List Nat) (m : Nat) :
    Nat → Nat → List Nat → Option (List Nat)
  | 0, _, _ => none
  | fuel + 1, k, registry =>
      if registry.length ≥ m then
        clear_loop oracle m fuel (k + 1)
          (try_to_clear_outstanding_requests registry (oracle k))
      else some registry

/-- Method `MappingClient._get_command_buffer(host_id, command_name)`, restricted
to its effect on the poll registry: an already-registered host is returned
as-is; otherwise the clearing loop runs until the registry is below
`max_concurrency`, then a fresh buffer for `host` is registered.  `none`
models a call still blocked in back-pressure after `fuel` polls.  -/
def get_command_buffer (oracle : Nat → List Nat) (max_concurrency : Nat)
    (registry : List Nat) (host : Nat) (fuel : Nat) : Option (List Nat) :=
  if host ∈ registry then some registry
  else
    match clear_loop oracle max_concurrency fuel 0 registry with
    | none => none
    | some registry1 => some (registry1 ++ [host])

/-- The state `_release_command_buffer` touches: the poll registry, the
connections handed back to `connection_pool.release` so far, and the buffer
being released.  -/
structure ReleaseState where
  registry : List Nat
  pool_released : List ConnObj
  buf : CommandBufferState
  deriving Repr

/-- Method `MappingClient._release_command_buffer(command_buffer)`: a closed
buffer is left alone; otherwise the buffer's host is unregistered from the
poll registry, its connection is released to the pool, and the buffer's
`connection` field is set to `None`.  -/
def release_command_buffer (s : ReleaseState) : ReleaseState :=
  if s.buf.closed then s
  else
    { registry := s.registry.filter (fun h => h ≠ s.buf.host_id),
      pool_released := s.pool_released ++ s.buf.connection.toList,
      buf := { s.buf with connection := none } }

/-! RoutingClient: the synchronous inline path. -/

/-- The behaviour of the connection `RoutingClient.execute_command` draws
from the pool: its `retry_on_timeout` flag, and the outcome of the `i`-th
`send_command` + `parse_response` attempt on it.  -/
structure ConnBehavior where
  retry_on_timeout : Bool
  attempt : Nat → Except PyErr RVal

/-- The observable outcome of one `RoutingClient.execute_command` call:
the returned value or propagated exception, how many times
`connection.disconnect()` ran, how many send/parse attempts were made, and
whether the `finally` block released the connection to the pool.  -/
structure ExecTrace where
  result : Except PyErr RVal
  disconnects : Nat
  attempts : Nat
  released : Bool
  deriving Repr

/-- Method `RoutingClient.execute_command`: try send + parse; on `ConnectionError`
or `TimeoutError` disconnect, then re-raise if the error is a timeout and
`retry_on_timeout` is off, else retry once and return or propagate that
second outcome; any other exception propagates untouched; the `finally`
clause always releases the connection.  -/
def RoutingClient_execute_command (c : ConnBehavior) : ExecTrace :=
  match c.attempt 0 with
  | .ok v => ⟨.ok v, 0, 1, true⟩
  | .error e =>
      if e = .connError ∨ e = .timeoutError then
        -- `except (ConnectionError, TimeoutError)`: disconnect first
        if ¬c.retry_on_timeout ∧ e = .timeoutError then
          ⟨.error e, 1, 1, true⟩
        else
          match c.attempt 1 with
          | .ok v => ⟨.ok v, 1, 2, true⟩
          | .error e2 => ⟨.error e2, 1, 2, true⟩
      else
        ⟨.error e, 0, 1, true⟩

/-! FanoutClient.target. -/

/-- The attributes of a `FanoutClient` that `target` reads or writes.  The
poll registry is mutable shared state, so it is represented by an object
id (`poll_ref`); two clients share their registry iff their `poll_ref`s
are equal.  -/
structure FanoutClientObj where
  target_hosts : Option (List Nat)
  max_concurrency : Option Nat
  auto_batch : Bool
  poll_ref : Nat
  is_retargeted : Bool
  deriving DecidableEq, Repr

/-- Constructor `FanoutClient.__init__(hosts, connection_pool, max_concurrency=None,
auto_batch=True)`: records the constructor arguments and allocates a fresh
poll registry (`freshPoll`).  -/
def FanoutClient_init (hosts : Option (List Nat)) (max_concurrency : Option Nat)
    (auto_batch : Bool) (freshPoll : Nat) : FanoutClientObj :=
  { target_hosts := hosts,
    max_concurrency := max_concurrency,
    auto_batch := auto_batch,
    poll_ref := freshPoll,
    is_retargeted := false }

/-- Method `FanoutClient.target(hosts)`: raises `TypeError` when already
retargeted; otherwise constructs
`FanoutClient(hosts, connection_pool=self.connection_pool,
max_concurrency=self._max_concurrency)` — note `auto_batch` is *not*
passed, so the constructor default `True` applies — then overwrites the
fresh poll registry with the parent's, re-assigns `_target_hosts`, and
marks the alias retargeted.  -/
def FanoutClient_target (self : FanoutClientObj) (hosts : Option (List Nat))
    (freshPoll : Nat) : Except PyErr FanoutClientObj :=
  if self.is_retargeted then .error .typeError
  else
    let rv := FanoutClient_init hosts self.max_concurrency true freshPoll
    .ok { rv with
            poll_ref := self.poll_ref,
            target_hosts := hosts,
            is_retargeted := true }

/-! MapManager. -/

/-- The attributes a `MapManager` instance ever has: `__init__` sets
`timeout` and `entered = None`; `__enter__` stores the entry wall-clock
time in `entered`.  No method ever assigns `self.started`.  Wall-clock
times and the timeout are modelled as integers.  -/
structure MapManagerObj where
  timeout : Option Int
  entered : Option Int
  deriving DecidableEq, Repr

/-- Reading `self.started` on a `MapManagerObj`: the attribute is never
assigned anywhere in the class, so the lookup raises `AttributeError`.  -/
def MapManagerObj.getattr_started (_ : MapManagerObj) : Except PyErr Int :=
  .error .attributeError

/-- What `__exit__` does to the mapping client.  -/
inductive ExitAction where
  | cancel
  | join (timeout : Option Int)
  deriving DecidableEq, Repr

/-- Method `MapManager.__enter__` at wall-clock `now`: records the entry time.  -/
def MapManagerObj.enter (m : MapManagerObj) (now : Int) : MapManagerObj :=
  { m with entered := some now }

/-- Method `MapManager.__exit__` at wall-clock `now`: with a pending exception it
cancels; otherwise, with a configured timeout it computes
`max(1, timeout - (time.time() - self.started))` — reading the never-assigned
`self.started`, which raises `AttributeError` before `join` is reached —
and with no timeout it joins unbounded.  -/
def MapManagerObj.exit (m : MapManagerObj) (exc_raised : Bool) (now : Int) :
    Except PyErr ExitAction :=
  if exc_raised then .ok .cancel
  else
    match m.timeout with
    | none => .ok (.join none)
    | some t =>
        match m.getattr_started with
        | .error e => .error e
        | .ok started => .ok (.join (some (max 1 (t - (now - started)))))

/-! A concrete per-element server for counterexample runs. -/

/-- A concrete stateless server: `GET k` answers `"v" ++ k`, `MGET` the
list of its per-key `GET`s, `INCR` the integer 1, and `SET`/`MSET` the
scalar `"OK"`.  -/
def srv0 : Server := fun name args =>
  if name = "GET" then
    match args with
    | [k] => .s ("v" ++ k)
    | _ => .nil
  else if name = "MGET" then .arr (args.map (fun k => .s ("v" ++ k)))
  else if name = "INCR" then .i 1
  else if name = "SET" then .s "OK"
  else if name = "MSET" then .s "OK"
  else .nil

/-- The interleaved input of the spec's scenario 2, enqueued on one buffer:
`GET a, INCR a, GET b` with promises 1, 2, 3.  -/
def exCmds : List Cmd := [⟨"GET", ["a"], 1⟩, ⟨"INCR", ["a"], 2⟩, ⟨"GET", ["b"], 3⟩]

/-- A connection whose first send/parse attempt times out and whose
retry-on-timeout policy is disabled.  -/
def connW : ConnBehavior :=
  ⟨false, fun i => if i = 0 then .error .timeoutError else .ok .nil⟩

/-! Theorems. -/

/-- The concrete server `srv0` satisfies the per-element `MGET`/`MSET`
assumption.  -/
theorem srv0_perElement : Server.perElement srv0 :=
  ⟨fun _ => rfl, fun _ _ _ _ => rfl⟩

/-- C1: "Coalescing is semantically transparent: for every input sequence of
commands enqueued on one CommandBuffer, the multiset of (promise, resolved
value) bindings produced when the buffer runs with auto_batch enabled equals
the multiset produced with auto_batch disabled, under the assumption that
the server answers MGET/MSET as the per-element equivalents of GET/SET."

This FAILS on the source: because the non-coalescible branch of
`auto_batch_commands` never clears `pending_batch` (the stray `None`
statement), the input `GET a, INCR a, GET b` is emitted as
`GET a; INCR a; MGET a b`, and the promise of the first `GET` is settled
twice — once by the standalone `GET` reply and once by the scatter of the
leaked `MGET` batch — so the binding multisets with and without batching
differ even against a per-element server.  -/
theorem C1_coalescing_not_transparent :
    Server.perElement srv0 ∧
    Multiset.ofList (run_with_batch srv0 4 exCmds) ≠
      Multiset.ofList (run_without_batch srv0 exCmds) := by
  refine ⟨srv0_perElement, fun h => ?_⟩
  have hc := congrArg Multiset.card h
  simp only [Multiset.coe_card] at hc
  have h1 : run_with_batch srv0 4 exCmds =
      [(1, .s "va"), (2, .i 1), (1, .s "va"), (3, .s "vb")] := rfl
  have h2 : run_without_batch srv0 exCmds =
      [(1, .s "va"), (2, .i 1), (3, .s "vb")] := rfl
  rw [h1, h2] at hc
  simp at hc

/-- C2: "the input GET a, INCR a, GET b yields exactly the stream
GET a; INCR a; GET b" — and, generally, that a non-coalescible command
flushes *and clears* the pending batch so every triple lands in exactly one
effective command.

This FAILS on the source: the non-coalescible branch yields the pending
batch but the statement meant to clear it is the no-op expression `None`,
so the later `GET b` is appended to the already-emitted `GET a` group and
the trailing flush emits `MGET a b` with a fresh batch promise 4 scattering
to promises 1 and 3: the emitted stream is `GET a; INCR a; MGET a b`, not
`GET a; INCR a; GET b`, and the first triple appears in two effective
commands.  -/
theorem C2_pending_batch_not_cleared :
    auto_batch_commands 4 exCmds =
      ([⟨"GET", ["a"], 1⟩, ⟨"INCR", ["a"], 2⟩, ⟨"MGET", ["a", "b"], 4⟩],
       [⟨4, true, [1, 3]⟩], 5) ∧
    (auto_batch_commands 4 exCmds).1 ≠ exCmds := by
  exact ⟨rfl, by decide⟩

/-- C3: "For every MapManager whose scope exits normally and that was
configured with a timeout, __exit__ invokes join with timeout equal to
max(1 second, configured_timeout minus the wall-clock time elapsed since
__enter__ recorded its start); when no timeout was configured it invokes
join unbounded."

The timed branch FAILS on the source: `__enter__` stores the entry time in
`self.entered`, but `__exit__` reads the never-assigned `self.started`, so
a normal exit of a timeout-configured MapManager raises `AttributeError`
before `join` is reached.  The untimed branch does invoke `join(None)`.  -/
theorem C3_timed_exit_attribute_error :
    ((MapManagerObj.enter ⟨some 5, none⟩ 10).exit false 12 =
        .error .attributeError) ∧
    (MapManagerObj.exit ⟨none, some 10⟩ false 12 = .ok (.join none)) :=
  ⟨rfl, rfl⟩

/-- The drain loop never emits a rejection event: the source only ever
calls `promise.resolve`.  -/
theorem drain_loop_no_reject (parse : Nat → Except PyErr RVal) (p : Nat)
    (e : PyErr) :
    ∀ (pending : List (String × Nat)) (i : Nat),
      SettleEv.reject p e ∉ (drain_loop parse i pending).1 := by
  intro pending
  induction pending with
  | nil => intro i; simp [drain_loop]
  | cons head rest ih =>
      intro i
      obtain ⟨n, q⟩ := head
      simp only [drain_loop]
      cases parse i with
      | error e2 => simp
      | ok v => simpa using ih (i + 1)

/-- When the drain loop aborts with an error, strictly fewer promises were
resolved than there were pending entries: the entry being drained at the
failure (and everything after it) is not settled.  -/
theorem drain_loop_err_lt (parse : Nat → Except PyErr RVal) :
    ∀ (pending : List (String × Nat)) (i : Nat),
      (drain_loop parse i pending).2.isSome →
      (drain_loop parse i pending).1.length < pending.length := by
  intro pending
  induction pending with
  | nil => intro i h; simp [drain_loop] at h
  | cons head rest ih =>
      intro i h
      obtain ⟨n, q⟩ := head
      simp only [drain_loop] at h ⊢
      cases hp : parse i with
      | error e2 => simp [hp]
      | ok v =>
          rw [hp] at h
          have hlt := ih (i + 1) (by simpa using h)
          simpa [hp] using Nat.succ_lt_succ hlt

/-- C4 counterexample: "If a connection or parse error occurs while a
CommandBuffer drains responses, then the promise currently being drained
and every subsequent entry still in pending_responses are rejected with
that same error, and the buffer is marked closed" is FALSE on the source.

On an open buffer with two pending responses whose first read raises a
connection error, `wait_for_responses` lets the exception propagate, emits
*no* settle event at all — in particular neither promise 1 nor promise 2 is
rejected — and leaves the buffer open (the connection is untouched), so
both promises stay pending forever.  -/
theorem C4_drain_error_counterexample :
    (wait_for_responses ⟨0, some ⟨some 3⟩, [], [("GET", 1), ("GET", 2)], true⟩
        (fun _ => .error .connError)).2.2 = some .connError ∧
    (wait_for_responses ⟨0, some ⟨some 3⟩, [], [("GET", 1), ("GET", 2)], true⟩
        (fun _ => .error .connError)).2.1 = [] ∧
    (wait_for_responses ⟨0, some ⟨some 3⟩, [], [("GET", 1), ("GET", 2)], true⟩
        (fun _ => .error .connError)).1.closed = false :=
  ⟨rfl, rfl, rfl⟩

/-- C4 amended: if a connection or parse error occurs while a CommandBuffer
drains responses, the error propagates to the caller as an exception; the
entry being drained and every subsequent `pending_responses` entry are left
unsettled (no promise is ever rejected) and are dropped from
`pending_responses`, which was emptied at the start of the drain; the
buffer is *not* marked closed.  -/
theorem C4_drain_error_amended (st : CommandBufferState)
    (parse : Nat → Except PyErr RVal) (h : st.closed = false) :
    (wait_for_responses st parse).1.pending_responses = [] ∧
    (wait_for_responses st parse).1.closed = false ∧
    (∀ p e, SettleEv.reject p e ∉ (wait_for_responses st parse).2.1) ∧
    ((wait_for_responses st parse).2.2.isSome →
      (wait_for_responses st parse).2.1.length < st.pending_responses.length) := by
  have hw : wait_for_responses st parse =
      ({ st with pending_responses := [] },
       (drain_loop parse 0 st.pending_responses).1,
       (drain_loop parse 0 st.pending_responses).2) := by
    simp [wait_for_responses, h]
  refine ⟨by rw [hw], ?_, ?_, ?_⟩
  · rw [hw]
    simpa [CommandBufferState.closed] using h
  · intro p e
    rw [hw]
    exact drain_loop_no_reject parse p e st.pending_responses 0
  · rw [hw]
    exact drain_loop_err_lt parse st.pending_responses 0

/-- Witness for `C4_drain_error_amended` at a concrete open buffer whose
second read fails.  -/
theorem C4_drain_error_amended_witness :
    (CommandBufferState.closed ⟨1, some ⟨some 5⟩, [], [("GET", 7), ("SET", 8)], false⟩
        = false) ∧
    ((wait_for_responses ⟨1, some ⟨some 5⟩, [], [("GET", 7), ("SET", 8)], false⟩
        (fun i => if i = 0 then .ok (.s "x") else .error .otherError)).1.pending_responses
        = [] ∧
     (wait_for_responses ⟨1, some ⟨some 5⟩, [], [("GET", 7), ("SET", 8)], false⟩
        (fun i => if i = 0 then .ok (.s "x") else .error .otherError)).1.closed = false ∧
     (∀ p e, SettleEv.reject p e ∉
        (wait_for_responses ⟨1, some ⟨some 5⟩, [], [("GET", 7), ("SET", 8)], false⟩
          (fun i => if i = 0 then .ok (.s "x") else .error .otherError)).2.1) ∧
     ((wait_for_responses ⟨1, some ⟨some 5⟩, [], [("GET", 7), ("SET", 8)], false⟩
          (fun i => if i = 0 then .ok (.s "x") else .error .otherError)).2.2.isSome →
       (wait_for_responses ⟨1, some ⟨some 5⟩, [], [("GET", 7), ("SET", 8)], false⟩
          (fun i => if i = 0 then .ok (.s "x") else .error .otherError)).2.1.length <
       ([("GET", 7), ("SET", 8)] : List (String × Nat)).length)) :=
  ⟨rfl, C4_drain_error_amended
      ⟨1, some ⟨some 5⟩, [], [("GET", 7), ("SET", 8)], false⟩
      (fun i => if i = 0 then .ok (.s "x") else .error .otherError) rfl⟩

/-- The back-pressure loop of `_get_command_buffer` only ever returns a
registry strictly below the concurrency cap: its `while` condition is
`len(registry) >= max_concurrency`.  -/
theorem clear_loop_lt (oracle : Nat → List Nat) (m : Nat) :
    ∀ (fuel k : Nat) (registry r : List Nat),
      clear_loop oracle m fuel k registry = some r → r.length < m := by
  intro fuel
  induction fuel with
  | zero => intro k registry r h; simp [clear_loop] at h
  | succ n ih =>
      intro k registry r h
      rw [clear_loop] at h
      by_cases hge : registry.length ≥ m
      · rw [if_pos hge] at h
        exact ih _ _ _ h
      · rw [if_neg hge] at h
        cases h
        omega

/-- C5: "For every MappingClient constructed with an integer
max_concurrency ≥ 1, immediately after any call to execute_command returns,
the number of buffers registered in its poll registry is ≤ max_concurrency;
a buffer for a new host is registered only after the registry size has been
brought strictly below max_concurrency."

Formalised over `_get_command_buffer` (the only step of `execute_command`
that touches the poll registry; `enqueue_command` does not register
buffers): whenever the call returns with the registry at or below the cap
beforehand, the registry stays at or below the cap, and a host not yet
registered is appended only to a registry the clearing loop has brought
strictly below the cap.  -/
theorem C5_concurrency_cap (oracle : Nat → List Nat) (m : Nat)
    (registry : List Nat) (host fuel : Nat) (registry1 : List Nat)
    (_hm : 1 ≤ m) (hlen : registry.length ≤ m)
    (h : get_command_buffer oracle m registry host fuel = some registry1) :
    registry1.length ≤ m ∧
    (host ∉ registry →
      ∃ r, clear_loop oracle m fuel 0 registry = some r ∧ r.length < m ∧
        registry1 = r ++ [host]) := by
  by_cases hmem : host ∈ registry
  · rw [get_command_buffer, if_pos hmem] at h
    cases h
    exact ⟨hlen, fun hc => absurd hmem hc⟩
  · rw [get_command_buffer, if_neg hmem] at h
    cases hcl : clear_loop oracle m fuel 0 registry with
    | none => rw [hcl] at h; cases h
    | some r =>
        rw [hcl] at h
        cases h
        have hlt := clear_loop_lt oracle m fuel 0 registry r hcl
        refine ⟨?_, fun _ => ⟨r, rfl, hlt, rfl⟩⟩
        simp only [List.length_append, List.length_cons, List.length_nil]
        omega

/-- Witness for `C5_concurrency_cap`: cap 1, host 0 registered; acquiring a
buffer for host 1 first drains host 0 (it polls ready) and only then
registers host 1, leaving one registered buffer.  -/
theorem C5_concurrency_cap_witness :
    1 ≤ 1 ∧ ([0] : List Nat).length ≤ 1 ∧
    get_command_buffer (fun _ => [0]) 1 [0] 1 2 = some [1] ∧
    (([1] : List Nat).length ≤ 1 ∧
     ((1 : Nat) ∉ ([0] : List Nat) →
       ∃ r, clear_loop (fun _ => [0]) 1 2 0 [0] = some r ∧ r.length < 1 ∧
         [1] = r ++ [1])) :=
  ⟨by decide, by decide, by decide,
   C5_concurrency_cap (fun _ => [0]) 1 [0] 1 2 [1] (by decide) (by decide)
     (by decide)⟩

/-- C6: "The synchronous RoutingClient.execute_command, on a
ConnectionError or TimeoutError from the first send/parse attempt,
disconnects the connection and retries exactly once on it — except that
when the error is a timeout and the connection's retry_on_timeout flag is
disabled, the original error propagates without a retry — and in every
outcome (success, failure, or exception) the connection is released back
to its pool."

For every connection behaviour: the connection is always released; a
successful first attempt returns its value with no disconnect and no
retry; a first-attempt ConnectionError/TimeoutError triggers exactly one
disconnect, after which a timeout with `retry_on_timeout` disabled
propagates the original error with no second attempt, while every other
caught case makes exactly one retry whose outcome (value or error) is the
call's outcome.  -/
theorem C6_retry_once_and_release (c : ConnBehavior) :
    (RoutingClient_execute_command c).released = true ∧
    (∀ v, c.attempt 0 = .ok v →
      RoutingClient_execute_command c = ⟨.ok v, 0, 1, true⟩) ∧
    (∀ e, c.attempt 0 = .error e →
      (e = PyErr.connError ∨ e = PyErr.timeoutError) →
      (RoutingClient_execute_command c).disconnects = 1 ∧
      (e = PyErr.timeoutError → c.retry_on_timeout = false →
        RoutingClient_execute_command c = ⟨.error e, 1, 1, true⟩) ∧
      ((e = PyErr.connError ∨ c.retry_on_timeout = true) →
        (RoutingClient_execute_command c).attempts = 2 ∧
        (RoutingClient_execute_command c).result = c.attempt 1)) := by
  refine ⟨?_, ?_, ?_⟩
  · unfold RoutingClient_execute_command
    split
    · rfl
    · split
      · split
        · rfl
        · split <;> rfl
      · rfl
  · intro v hv
    simp [RoutingClient_execute_command, hv]
  · intro e he hce
    by_cases hto : ¬c.retry_on_timeout ∧ e = PyErr.timeoutError
    · have hd : RoutingClient_execute_command c = ⟨.error e, 1, 1, true⟩ := by
        simp only [RoutingClient_execute_command, he]
        rw [if_pos hce, if_pos hto]
      refine ⟨by rw [hd], fun _ _ => hd, fun hor => ?_⟩
      exfalso
      obtain ⟨hnr, het⟩ := hto
      rcases hor with hc2 | hr2
      · rw [het] at hc2
        exact absurd hc2 (by decide)
      · exact hnr (by simp [hr2])
    · have hd : RoutingClient_execute_command c =
          (match c.attempt 1 with
           | .ok v => ⟨.ok v, 1, 2, true⟩
           | .error e2 => ⟨.error e2, 1, 2, true⟩) := by
        simp only [RoutingClient_execute_command, he]
        rw [if_pos hce, if_neg hto]
      have hnot : ∀ _ : e = PyErr.timeoutError, ∀ _ : c.retry_on_timeout = false,
          RoutingClient_execute_command c = ⟨.error e, 1, 1, true⟩ := by
        intro het hrf
        exact absurd ⟨by simp [hrf], het⟩ hto
      cases h1 : c.attempt 1 with
      | ok v =>
          rw [h1] at hd
          exact ⟨by rw [hd], hnot, fun _ => ⟨by rw [hd], by rw [hd]⟩⟩
      | error e2 =>
          rw [h1] at hd
          exact ⟨by rw [hd], hnot, fun _ => ⟨by rw [hd], by rw [hd]⟩⟩

/-- Witness for `C6_retry_once_and_release` at `connW` (first attempt times
out, retry-on-timeout disabled): the original timeout propagates after one
disconnect and no retry, and the connection is released.  -/
theorem C6_retry_once_and_release_witness :
    (RoutingClient_execute_command connW).released = true ∧
    RoutingClient_execute_command connW =
      ⟨.error .timeoutError, 1, 1, true⟩ :=
  ⟨(C6_retry_once_and_release connW).1,
   ((C6_retry_once_and_release connW).2.2 .timeoutError rfl
      (Or.inr rfl)).2.1 rfl rfl⟩

/-- C7: "CommandBuffer flush (send_pending_requests) is a no-op when
commands is empty; otherwise it applies the coalescer when auto_batch is
enabled, packs all effective commands into one wire buffer, writes it to
the connection, appends one (name, promise) pair to pending_responses for
each effective command in the order written, and leaves commands empty
afterwards."

Stated for an open buffer (`assert_open` raises `ValueError` on a closed
one before anything else happens).  The effective command stream is the
coalesced stream when `auto_batch` is set and the raw queue otherwise; the
wire value is the content of the single packed write.  -/
theorem C7_flush_contract (st : CommandBufferState) (fresh : Nat)
    (h : st.closed = false) :
    (st.commands = [] → send_pending_requests st fresh = .ok (st, [], [], fresh)) ∧
    (st.commands ≠ [] →
      ∃ st1 wire scatters f,
        send_pending_requests st fresh = .ok (st1, wire, scatters, f) ∧
        st1.commands = [] ∧
        wire = (if st.auto_batch then auto_batch_commands fresh st.commands
                else (st.commands, [], fresh)).1.map (fun c => (c.name, c.args)) ∧
        st1.pending_responses = st.pending_responses ++
          (if st.auto_batch then auto_batch_commands fresh st.commands
           else (st.commands, [], fresh)).1.map (fun c => (c.name, c.promise)) ∧
        st1.host_id = st.host_id ∧ st1.connection = st.connection ∧
        st1.auto_batch = st.auto_batch) := by
  have hcl : ¬(st.closed = true) := by simp [h]
  constructor
  · intro hc
    simp [send_pending_requests, h, hc]
  · intro hc
    have hs : send_pending_requests st fresh =
        .ok ({ st with
                 commands := [],
                 pending_responses := st.pending_responses ++
                   (if st.auto_batch then auto_batch_commands fresh st.commands
                    else (st.commands, [], fresh)).1.map (fun c => (c.name, c.promise)) },
             (if st.auto_batch then auto_batch_commands fresh st.commands
              else (st.commands, [], fresh)).1.map (fun c => (c.name, c.args)),
             (if st.auto_batch then auto_batch_commands fresh st.commands
              else (st.commands, [], fresh)).2.1,
             (if st.auto_batch then auto_batch_commands fresh st.commands
              else (st.commands, [], fresh)).2.2) := by
      simp only [send_pending_requests]
      rw [if_neg hcl, if_neg hc]
    exact ⟨_, _, _, _, hs, rfl, rfl, rfl, rfl, rfl, rfl⟩

/-- Witness for `C7_flush_contract`: an open buffer with one queued `GET`
flushes it as the single wire entry, records one pending response, and
ends with an empty command queue.  -/
theorem C7_flush_contract_witness :
    (CommandBufferState.closed ⟨0, some ⟨some 3⟩, [⟨"GET", ["a"], 1⟩], [], true⟩
        = false) ∧
    (∃ st1 wire scatters f,
        send_pending_requests ⟨0, some ⟨some 3⟩, [⟨"GET", ["a"], 1⟩], [], true⟩ 2 =
          .ok (st1, wire, scatters, f) ∧
        st1.commands = [] ∧
        wire = [("GET", ["a"])] ∧
        st1.pending_responses = [("GET", 1)]) := by
  refine ⟨rfl, ?_⟩
  obtain ⟨st1, wire, scatters, f, hs, hcmds, hwire, hpend, -, -, -⟩ :=
    (C7_flush_contract ⟨0, some ⟨some 3⟩, [⟨"GET", ["a"], 1⟩], [], true⟩ 2 rfl).2
      (by decide)
  exact ⟨st1, wire, scatters, f, hs, hcmds, by rw [hwire]; rfl, by rw [hpend]; rfl⟩

/-- C8: "For every FanoutClient, target(hosts) returns an alias that shares
the parent's poll registry and max_concurrency but whose auto_batch flag is
always True, even when the parent was constructed with auto_batch=False;
the parent's auto_batch setting is not propagated to the alias."

The alias produced by a not-yet-retargeted client carries the parent's
poll registry reference and max_concurrency, and `auto_batch = true`
unconditionally — the result does not depend on `self.auto_batch` at all.  -/
theorem C8_target_auto_batch (self : FanoutClientObj) (hosts : Option (List Nat))
    (freshPoll : Nat) (h : self.is_retargeted = false) :
    FanoutClient_target self hosts freshPoll =
      .ok { target_hosts := hosts,
            max_concurrency := self.max_concurrency,
            auto_batch := true,
            poll_ref := self.poll_ref,
            is_retargeted := true } := by
  simp [FanoutClient_target, FanoutClient_init, h]

/-- Witness for `C8_target_auto_batch`: a parent constructed with
`auto_batch = false` still hands out an alias with `auto_batch = true`,
the parent's poll registry (object 0) and max_concurrency 64.  -/
theorem C8_target_auto_batch_witness :
    (FanoutClientObj.is_retargeted ⟨none, some 64, false, 0, false⟩ = false) ∧
    FanoutClient_target ⟨none, some 64, false, 0, false⟩ (some [1, 2]) 9 =
      .ok ⟨some [1, 2], some 64, true, 0, true⟩ :=
  ⟨rfl, C8_target_auto_batch ⟨none, some 64, false, 0, false⟩ (some [1, 2]) 9 rfl⟩

/-- A release leaves a closed buffer untouched.  -/
theorem release_closed_eq (s : ReleaseState) (h : s.buf.closed = true) :
    release_command_buffer s = s := by
  simp [release_command_buffer, h]

/-- Releasing an open buffer closes it (its connection becomes `None`).  -/
theorem release_result_closed (s : ReleaseState) (h : s.buf.closed = false) :
    (release_command_buffer s).buf.closed = true := by
  simp only [release_command_buffer]
  rw [if_neg (show ¬(s.buf.closed = true) by simp [h])]
  rfl

/-- C9: "MappingClient._release_command_buffer is idempotent: called on a
buffer whose connection is None (closed) it changes no state; after one
successful call the buffer's connection is None and it is unregistered from
the poll registry, so a second call on the same buffer is a no-op."  -/
theorem C9_release_idempotent (s : ReleaseState) :
    release_command_buffer (release_command_buffer s) = release_command_buffer s ∧
    (s.buf.closed = true → release_command_buffer s = s) ∧
    (s.buf.closed = false →
      (release_command_buffer s).buf.connection = none ∧
      s.buf.host_id ∉ (release_command_buffer s).registry) := by
  cases h : s.buf.closed with
  | true =>
      refine ⟨?_, fun _ => release_closed_eq s h, fun hc => absurd hc (by simp [h])⟩
      rw [release_closed_eq s h, release_closed_eq s h]
  | false =>
      refine ⟨release_closed_eq _ (release_result_closed s h),
        fun hc => absurd hc (by simp [h]), fun _ => ⟨?_, ?_⟩⟩
      · simp [release_command_buffer, h]
      · simp [release_command_buffer, h, List.mem_filter]

/-- Witness for `C9_release_idempotent`: releasing an open buffer for host
5 nulls its connection and removes host 5 from the registry.  -/
theorem C9_release_idempotent_witness :
    (CommandBufferState.closed ⟨5, some ⟨some 3⟩, [], [], true⟩ = false) ∧
    ((release_command_buffer ⟨[5, 7], [], ⟨5, some ⟨some 3⟩, [], [], true⟩⟩).buf.connection
        = none ∧
      (5 : Nat) ∉
        (release_command_buffer ⟨[5, 7], [], ⟨5, some ⟨some 3⟩, [], [], true⟩⟩).registry) :=
  ⟨rfl, (C9_release_idempotent ⟨[5, 7], [], ⟨5, some ⟨some 3⟩, [], [], true⟩⟩).2.2 rfl⟩

/-- C10: "For a coalesced list-response group (e.g. GET to MGET) of n ≥ 2
original promises, when the batch promise resolves with a list of m values,
exactly min(m, n) original promises are resolved, pairing values to
promises strictly by position; if the list is shorter than the group, the
remaining promises stay pending and no error is raised."

On a group of at least two `GET` tuples, `merge_batch` registers a
list-response scatter over exactly the group's promises in enqueue order;
running it on a list reply of m values issues exactly `min m n` resolve
events, and the i-th event resolves the i-th promise with the i-th value
(a total function of the reply — nothing is raised for a short list).  -/
theorem C10_scatter_positional (fresh : Nat) (tuples : List (List Arg × Nat))
    (values : List RVal) (h2 : 2 ≤ tuples.length) :
    ∃ sc : Scatter,
      (merge_batch fresh "GET" tuples).2.1 = some sc ∧
      sc.listResponse = true ∧
      sc.members = tuples.map (fun t : List Arg × Nat => t.2) ∧
      (runScatter sc (.arr values)).length = min values.length tuples.length ∧
      (∀ (i : Nat) (v : RVal) (t : List Arg × Nat), values[i]? = some v → tuples[i]? = some t →
        (runScatter sc (.arr values))[i]? = some (t.2, v)) := by
  match tuples, h2 with
  | t1 :: t2 :: rest, _ =>
      refine ⟨⟨fresh, true, (t1 :: t2 :: rest).map (fun t : List Arg × Nat => t.2)⟩, rfl, rfl, rfl, ?_, ?_⟩
      · simp [runScatter]
      · intro i v t hv ht
        simp only [runScatter, if_pos trivial]
        have hm : ((t1 :: t2 :: rest).map (fun t : List Arg × Nat => t.2))[i]? = some t.2 := by
          rw [List.getElem?_map, ht]
          rfl
        have hz : (values.zip ((t1 :: t2 :: rest).map (fun t : List Arg × Nat => t.2)))[i]? =
            some (v, t.2) := by
          rw [List.getElem?_zip_eq_some]
          exact ⟨hv, hm⟩
        rw [List.getElem?_map, hz]
        rfl

/-- Witness for `C10_scatter_positional`: a `GET` group of three promises
whose batch reply has a single value resolves exactly promise 1 with that
value, positionally, leaving promises 2 and 3 pending.  -/
theorem C10_scatter_positional_witness :
    2 ≤ ([(["a"], 1), (["b"], 2), (["c"], 3)] : List (List Arg × Nat)).length ∧
    ∃ sc : Scatter,
      (merge_batch 5 "GET" [(["a"], 1), (["b"], 2), (["c"], 3)]).2.1 = some sc ∧
      sc.listResponse = true ∧
      sc.members = ([(["a"], 1), (["b"], 2), (["c"], 3)] :
          List (List Arg × Nat)).map (fun t : List Arg × Nat => t.2) ∧
      (runScatter sc (.arr [.s "x"])).length =
        min ([RVal.s "x"] : List RVal).length
          ([(["a"], 1), (["b"], 2), (["c"], 3)] : List (List Arg × Nat)).length ∧
      (∀ (i : Nat) (v : RVal) (t : List Arg × Nat), ([RVal.s "x"] : List RVal)[i]? = some v →
        ([(["a"], 1), (["b"], 2), (["c"], 3)] : List (List Arg × Nat))[i]? = some t →
        (runScatter sc (.arr [.s "x"]))[i]? = some (t.2, v)) :=
  ⟨by decide,
   C10_scatter_positional 5 [(["a"], 1), (["b"], 2), (["c"], 3)] [.s "x"] (by decide)⟩

end Rb

